import Mathlib

/-!
Verification of the employee-management web client
(`src/component/EmployeeComponent.tsx` and the transport layer in
`src/service/`).  The component's state slots and its handlers
(`handleInputChange`, `getErrors`, `getUpdates`, `fillForm`, `save`,
`update`, `deleteEmployee`) are embedded as pure functions over an
explicit state record.  Network calls, alerts and confirmation prompts
are recorded in an effect trace; the outcome of each HTTP call is an
explicit parameter (`Except` of a thrown error or a response envelope),
mirroring the single try/catch around each call in the source.
-/

namespace EmployeeMgmt

/-- The `Gender` entity: numeric id and display name
(spec section 3; `src/entity/Gender.ts`). -/
structure Gender where
  id : Nat
  name : String
deriving DecidableEq, Repr

/-- The `Employee` entity: optional numeric id (absent until persisted),
name, nic, email and a nullable gender reference
(spec section 3 and the payload shape in section 6). -/
structure Employee where
  id : Option Nat
  name : String
  nic : String
  email : String
  gender : Option Gender
deriving DecidableEq, Repr

/-- `FormState` from EmployeeComponent.tsx lines 9-14: draft values for
name, nic, email and a nullable Gender. -/
structure FormState where
  name : String
  nic : String
  email : String
  gender : Option Gender
deriving DecidableEq, Repr

/-- `initialForm` (lines 16-21). -/
def initialForm : FormState :=
  { name := "", nic := "", email := "", gender := none }

/-- The `ApiResponse` envelope from `src/service/api-response.ts`. -/
structure ApiResponse (T : Type) where
  message : String
  statusCode : Int
  timestamp : String
  data : T
deriving DecidableEq, Repr

/-- `ApiEndpoints.paths.employee` from `api-endpoints.ts`. -/
def employeePath : String := "/api/employees"

/-- `ApiEndpoints.paths.gender` from `api-endpoints.ts`. -/
def genderPath : String := "/api/genders"

/-- An HTTP request as issued through `ApiService` (method, path, and
for post/put the JSON body, which the component passes as the possibly
null candidate employee). -/
inductive Request where
  | get (path : String)
  | post (path : String) (body : Option Employee)
  | put (path : String) (body : Option Employee)
  | delete (path : String)
deriving DecidableEq, Repr

/-- An observable effect of a handler: an HTTP request, a `window.alert`,
or a `window.confirm` prompt. -/
inductive Effect where
  | request (r : Request)
  | alert (msg : String)
  | confirm (msg : String)
deriving DecidableEq, Repr

/-- The component's `useState` slots (lines 25-34). -/
structure ComponentState where
  employee : Option Employee
  oldEmployee : Option Employee
  employees : List Employee
  genders : List Gender
  loading : Bool
  error : Option String
  form : FormState
  submitting : Bool
  updating : Bool
deriving DecidableEq, Repr

/-- A thrown transport error: `some msg` when the thrown value is an
`Error` with message `msg`, `none` for any other thrown value (the
source checks `error instanceof Error`). -/
abbrev ThrownError := Option String

/-- Outcome of one `ApiService` call that the component awaits. -/
abbrev CallResult (T : Type) := Except ThrownError (ApiResponse T)

/-- The change events the rendered form can emit: the three text inputs
named `name`, `nic`, `email` and the select named `gender`, each carrying
the new string value (the JSX fixes exactly these four `name`s). -/
inductive InputEvent where
  | name (v : String)
  | nic (v : String)
  | email (v : String)
  | gender (v : String)
deriving DecidableEq, Repr

/-- JavaScript's default string coercion of a plain object, as produced
by `response.message + " " + response.data` in the success alerts. -/
def jsObjectString (_ : Employee) : String := "[object Object]"

/-- `disableButtons` (lines 99-102): sets the `submitting` and
`updating` flags. -/
def disableButtons (s : ComponentState) (add upd : Bool) : ComponentState :=
  { s with submitting := add, updating := upd }

/-- The guard on line 129: all four form fields are filled
(JS truthiness: non-empty strings, non-null gender). -/
def formComplete (f : FormState) : Bool :=
  f.name != "" && f.nic != "" && f.email != "" && f.gender.isSome

/-- `handleInputChange` (lines 115-143): update the named form field
(resolving a gender select value against the loaded gender list, no
match giving null), then derive the candidate employee when all four
fields are filled, otherwise reset it to null.  The derived candidate
carries no id (the object literal on lines 130-135 has none). -/
def handleInputChange (s : ComponentState) (ev : InputEvent) : ComponentState :=
  let employeeForm : FormState :=
    match ev with
    | .name v => { s.form with name := v }
    | .nic v => { s.form with nic := v }
    | .email v => { s.form with email := v }
    | .gender v =>
        { s.form with gender := s.genders.find? (fun g => toString g.id == v) }
  let newEmployee : Option Employee :=
    if formComplete employeeForm then
      some { id := none, name := employeeForm.name, nic := employeeForm.nic,
             email := employeeForm.email, gender := employeeForm.gender }
    else
      none
  { s with form := employeeForm, employee := newEmployee }

/-- `getErrors` (lines 290-299): one message per missing form field, in
source order. -/
def getErrors (f : FormState) : List String :=
  (if f.name = "" then ["Name is required"] else []) ++
  (if f.nic = "" then ["NIC is required"] else []) ++
  (if f.email = "" then ["Email is required"] else []) ++
  (if f.gender = none then ["Gender is required"] else [])

/-- `getUpdates` (lines 323-341): compares `employee` to `oldEmployee`
field by field (gender by `gender?.id`); yields nothing unless both are
non-null. -/
def getUpdates (employee oldEmployee : Option Employee) : List String :=
  match employee, oldEmployee with
  | some e, some old =>
      (if e.name ≠ old.name then ["Name is updated"] else []) ++
      (if e.nic ≠ old.nic then ["NIC is updated"] else []) ++
      (if e.email ≠ old.email then ["Email is updated"] else []) ++
      (if e.gender.map (fun g => g.id) ≠ old.gender.map (fun g => g.id) then
        ["Gender is updated"] else [])
  | _, _ => []

/-- `fillForm` (lines 309-315): put the row into the form, deep-copy it
into both the live candidate and the `oldEmployee` snapshot, then
`disableButtons(true, false)`. -/
def fillForm (s : ComponentState) (emp : Employee) : ComponentState :=
  let s1 := { s with
    form := { name := emp.name, nic := emp.nic, email := emp.email,
              gender := emp.gender },
    employee := some emp,
    oldEmployee := some emp }
  disableButtons s1 true false

/-- `loadEmployees` (lines 66-74): GET the employee list; on success
overwrite the `employees` slot, on a thrown error set the error slot
(falling back to "Failed to fetch employees" for non-`Error` throws). -/
def loadEmployees (s : ComponentState)
    (result : CallResult (List Employee)) : ComponentState × List Effect :=
  match result with
  | .ok resp => ({ s with employees := resp.data }, [.request (.get employeePath)])
  | .error msg =>
      ({ s with error := some (msg.getD "Failed to fetch employees") },
       [.request (.get employeePath)])

/-- `save` (lines 161-190): validate; on any error join the messages
into the error slot and return before any request.  Otherwise set
`submitting`, clear the error, POST the candidate; on success reload the
list, reset the form and alert the server message; on failure put the
message in the error slot; finally `submitting := false`. -/
def save (s : ComponentState) (postResult : CallResult Employee)
    (reloadResult : CallResult (List Employee)) : ComponentState × List Effect :=
  let errors := getErrors s.form
  if errors.length > 0 then
    ({ s with error := some (String.intercalate ", " errors) }, [])
  else
    let s1 := { s with submitting := true, error := none }
    match postResult with
    | .ok resp =>
        let lr := loadEmployees s1 reloadResult
        ({ lr.1 with form := initialForm, submitting := false },
         .request (.post employeePath s.employee) :: lr.2 ++
           [.alert (resp.message ++ " " ++ jsObjectString resp.data)])
    | .error msg =>
        ({ s1 with error := some (msg.getD "Failed to add employee"),
                   submitting := false },
         [.request (.post employeePath s.employee)])

/-- The body the PUT on lines 231-237 sends: when both the candidate and
the snapshot exist, the candidate with the snapshot's id copied onto it
(`employee.id = oldEmployee.id`); otherwise the candidate unchanged. -/
def putBody (s : ComponentState) : Option Employee :=
  match s.employee, s.oldEmployee with
  | some e, some old => some { e with id := old.id }
  | e?, _ => e?

/-- `update` (lines 210-250): alert the change list (or "No changes
detected") before validating; on validation errors set the error slot
and return before any request.  Otherwise set `updating`, clear the
error, copy the snapshot id onto the candidate, PUT it; on success
reload the list, reset the form and alert the server message; on failure
set the error slot; finally `setUpdating(false)` followed by
`disableButtons(false, true)`, leaving `submitting := false` and
`updating := true`. -/
def update (s : ComponentState) (putResult : CallResult Employee)
    (reloadResult : CallResult (List Employee)) : ComponentState × List Effect :=
  let updates := getUpdates s.employee s.oldEmployee
  let changeAlert : Effect :=
    .alert (if updates.length > 0 then String.intercalate ", " updates
            else "No changes detected")
  let errors := getErrors s.form
  if errors.length > 0 then
    ({ s with error := some (String.intercalate ", " errors) }, [changeAlert])
  else
    let body := putBody s
    let s1 := { s with updating := true, error := none, employee := body }
    match putResult with
    | .ok resp =>
        let lr := loadEmployees s1 reloadResult
        ({ lr.1 with form := initialForm, submitting := false, updating := true },
         changeAlert :: .request (.put employeePath body) :: lr.2 ++
           [.alert (resp.message ++ " " ++ jsObjectString resp.data)])
    | .error msg =>
        ({ s1 with error := some (msg.getD "Failed to update employee"),
                   submitting := false, updating := true },
         [changeAlert, .request (.put employeePath body)])

/-- JavaScript's coercion of the possibly-undefined id used to build the
DELETE path `ApiEndpoints.paths.employee + "/" + employee.id`. -/
def jsIdString : Option Nat → String
  | some n => toString n
  | none => "undefined"

/-- `deleteEmployee` (lines 263-279): confirmation prompt (declining
returns without any request); DELETE by id; on success reload the list
and alert the server message; on a thrown error set the error slot (the
list is not touched). -/
def deleteEmployee (s : ComponentState) (emp : Employee) (confirmed : Bool)
    (deleteResult : CallResult Employee)
    (reloadResult : CallResult (List Employee)) : ComponentState × List Effect :=
  let confirmMsg :=
    "Are you sure you want to delete this employee? : " ++ emp.name
  if !confirmed then
    (s, [.confirm confirmMsg])
  else
    let path := employeePath ++ "/" ++ jsIdString emp.id
    match deleteResult with
    | .ok resp =>
        let lr := loadEmployees s reloadResult
        (lr.1,
         .confirm confirmMsg :: .request (.delete path) :: lr.2 ++
           [.alert (resp.message ++ " " ++ jsObjectString resp.data)])
    | .error msg =>
        ({ s with error := some (msg.getD "Failed to delete employee") },
         [.confirm confirmMsg, .request (.delete path)])

/-- `clear` (lines 357-362). -/
def clear (s : ComponentState) : ComponentState :=
  disableButtons
    { s with form := initialForm, employee := none, oldEmployee := none }
    false true

/-- Applying a sequence of form-input events in order. -/
def applyEvents (s : ComponentState) (evs : List InputEvent) : ComponentState :=
  evs.foldl handleInputChange s

/-- The HTTP requests contained in an effect trace. -/
def requestsOf (effs : List Effect) : List Request :=
  effs.filterMap (fun e => match e with | .request r => some r | _ => none)

/-- The number of missing required fields of a form.  Stated from the
spec's words ("validation error list length equals the number of missing
fields") to compare against `getErrors`. -/
def missingFieldCount (f : FormState) : Nat :=
  (if f.name = "" then 1 else 0) + (if f.nic = "" then 1 else 0) +
  (if f.email = "" then 1 else 0) + (if f.gender = none then 1 else 0)

/-- The gender lookup set used in the spec's scenarios. -/
def sampleGenders : List Gender := [⟨1, "Female"⟩, ⟨2, "Male"⟩]

/-- The employee row of the spec's scenario. -/
def aliceRow : Employee := ⟨some 1, "Alice", "N1", "a@x.com", some ⟨1, "Female"⟩⟩

/-- The component state after mount with the scenario data loaded. -/
def baseState : ComponentState :=
  { employee := none, oldEmployee := none, employees := [aliceRow],
    genders := sampleGenders, loading := false, error := none,
    form := initialForm, submitting := false, updating := true }

/-- A sample successful mutation response envelope. -/
def sampleResp : ApiResponse Employee := ⟨"Updated", 200, "t0", aliceRow⟩

/-- A sample successful list-reload response envelope. -/
def sampleListResp : ApiResponse (List Employee) := ⟨"OK", 200, "t1", [aliceRow]⟩

theorem getErrors_eq_nil_iff (f : FormState) :
    getErrors f = [] ↔ formComplete f = true := by
  unfold getErrors formComplete
  by_cases h1 : f.name = "" <;> by_cases h2 : f.nic = "" <;>
    by_cases h3 : f.email = "" <;> by_cases h4 : f.gender = none <;>
    simp [h1, h2, h3, h4, Option.isSome_iff_ne_none, bne_iff_ne]

/-- C3: computing the changed-fields list between an employee record and
a structurally identical copy of it yields the empty list. -/
theorem c3_getUpdates_identical_empty (e : Employee) :
    getUpdates (some e) (some e) = [] := by
  simp [getUpdates]

/-- C4: a gender select value matching no id in the loaded gender set
makes `handleInputChange` store a null gender in the form and reset the
derived candidate employee to null. -/
theorem c4_unmatched_gender_null (s : ComponentState) (v : String)
    (h : ∀ g ∈ s.genders, toString g.id ≠ v) :
    (handleInputChange s (.gender v)).form.gender = none ∧
    (handleInputChange s (.gender v)).employee = none := by
  have hfind : s.genders.find? (fun g => toString g.id == v) = none := by
    apply List.find?_eq_none.mpr
    intro g hg
    simpa using h g hg
  constructor
  · simp [handleInputChange, hfind]
  · simp [handleInputChange, hfind, formComplete]

theorem c4_witness :
    (handleInputChange baseState (.gender "9")).form.gender = none ∧
    (handleInputChange baseState (.gender "9")).employee = none :=
  c4_unmatched_gender_null baseState "9" (by decide)

/-- C1: with name, nic and email populated and the gender select value
matching the id of the unique gender in the loaded set with that id,
`handleInputChange` derives a non-null candidate employee whose gender
is that gender entity. -/
theorem c1_wellformed_gender_candidate (s : ComponentState) (v : String)
    (g : Gender) (hmem : g ∈ s.genders) (hid : toString g.id = v)
    (huniq : ∀ g' ∈ s.genders, toString g'.id = v → g' = g)
    (hn : s.form.name ≠ "") (hc : s.form.nic ≠ "") (he : s.form.email ≠ "") :
    ∃ emp, (handleInputChange s (.gender v)).employee = some emp ∧
      emp.gender = some g := by
  have hfind : s.genders.find? (fun g' => toString g'.id == v) = some g := by
    cases hfound : s.genders.find? (fun g' => toString g'.id == v) with
    | none =>
        exfalso
        have := List.find?_eq_none.mp hfound g hmem
        simp [hid] at this
    | some g' =>
        have hpred := List.find?_some hfound
        have hmem' := List.mem_of_find?_eq_some hfound
        simp at hpred
        rw [huniq g' hmem' hpred]
  have hcomp : formComplete { s.form with gender := some g } = true := by
    simp [formComplete, bne_iff_ne, hn, hc, he]
  refine ⟨{ id := none, name := s.form.name, nic := s.form.nic,
            email := s.form.email, gender := some g }, ?_, rfl⟩
  simp [handleInputChange, hfind, hcomp]

theorem c1_witness :
    ∃ emp,
      (handleInputChange
        { baseState with
          form := { name := "Bob", nic := "N2", email := "b@x.com",
                    gender := none } }
        (.gender "2")).employee = some emp ∧
      emp.gender = some ⟨2, "Male"⟩ :=
  c1_wellformed_gender_candidate _ "2" ⟨2, "Male"⟩ (by decide) (by decide)
    (by decide) (by decide) (by decide) (by decide)

/-- C2: a submission (create or update) with at least one of
name/nic/email/gender missing produces a validation error list whose
length is the number of missing fields, joins the messages into the
error slot, and issues no HTTP request. -/
theorem c2_missing_fields_block_submit (s : ComponentState)
    (pr ur : CallResult Employee) (rr : CallResult (List Employee))
    (h : 0 < missingFieldCount s.form) :
    (getErrors s.form).length = missingFieldCount s.form ∧
    (save s pr rr).1.error = some (String.intercalate ", " (getErrors s.form)) ∧
    requestsOf (save s pr rr).2 = [] ∧
    (update s ur rr).1.error = some (String.intercalate ", " (getErrors s.form)) ∧
    requestsOf (update s ur rr).2 = [] := by
  have hlen : (getErrors s.form).length = missingFieldCount s.form := by
    unfold getErrors missingFieldCount
    by_cases h1 : s.form.name = "" <;> by_cases h2 : s.form.nic = "" <;>
      by_cases h3 : s.form.email = "" <;> by_cases h4 : s.form.gender = none <;>
      simp [h1, h2, h3, h4]
  have hpos : 0 < (getErrors s.form).length := hlen ▸ h
  refine ⟨hlen, ?_, ?_, ?_, ?_⟩ <;> simp [save, update, requestsOf, hpos]

theorem c2_witness :
    0 < missingFieldCount baseState.form ∧
    ((getErrors baseState.form).length = missingFieldCount baseState.form ∧
     (save baseState (.error none) (.error none)).1.error =
       some (String.intercalate ", " (getErrors baseState.form)) ∧
     requestsOf (save baseState (.error none) (.error none)).2 = [] ∧
     (update baseState (.error none) (.error none)).1.error =
       some (String.intercalate ", " (getErrors baseState.form)) ∧
     requestsOf (update baseState (.error none) (.error none)).2 = []) :=
  ⟨by decide,
   c2_missing_fields_block_submit baseState (.error none) (.error none)
     (.error none) (by decide)⟩

/-- The state of the spec's scenario after editing Alice's row and
changing the gender select to id 2. -/
def c5AfterEdit : ComponentState :=
  handleInputChange (fillForm baseState aliceRow) (.gender "2")

/-- C5: in the scenario where Alice's row (id 1, gender Female/1) is
edited and only the gender is changed to id 2, the change list is
exactly ["Gender is updated"], it is alerted before the PUT, and the PUT
payload carries id 1 and gender {2, Male}. -/
theorem c5_update_scenario :
    getUpdates c5AfterEdit.employee c5AfterEdit.oldEmployee =
      ["Gender is updated"] ∧
    (update c5AfterEdit (.ok sampleResp) (.ok sampleListResp)).2 =
      [.alert "Gender is updated",
       .request (.put employeePath
         (some ⟨some 1, "Alice", "N1", "a@x.com", some ⟨2, "Male"⟩⟩)),
       .request (.get employeePath),
       .alert "Updated [object Object]"] := by decide

theorem handleInputChange_oldEmployee (s : ComponentState) (ev : InputEvent) :
    (handleInputChange s ev).oldEmployee = s.oldEmployee := rfl

theorem applyEvents_oldEmployee (s : ComponentState) (evs : List InputEvent) :
    (applyEvents s evs).oldEmployee = s.oldEmployee := by
  induction evs generalizing s with
  | nil => rfl
  | cons ev evs ih =>
      simpa [applyEvents, List.foldl_cons] using ih (handleInputChange s ev)

theorem handleInputChange_employee_isSome (s : ComponentState) (ev : InputEvent)
    (h : getErrors (handleInputChange s ev).form = []) :
    (handleInputChange s ev).employee.isSome = true := by
  have hc : formComplete (handleInputChange s ev).form = true :=
    (getErrors_eq_nil_iff _).mp h
  unfold handleInputChange at hc ⊢
  simp only [] at hc ⊢
  simp [hc]

theorem applyEvents_fillForm_employee_isSome (s : ComponentState)
    (e0 : Employee) (evs : List InputEvent)
    (h : getErrors (applyEvents (fillForm s e0) evs).form = []) :
    (applyEvents (fillForm s e0) evs).employee.isSome = true := by
  induction evs using List.reverseRecOn with
  | nil => rfl
  | append_singleton evs ev ih =>
      simp only [applyEvents, List.foldl_append, List.foldl_cons,
        List.foldl_nil] at h ⊢
      exact handleInputChange_employee_isSome _ ev h

/-- C6: editing a loaded record through the form (fillForm followed by
any sequence of input events) and then saving through the update flow
with validation passing sends a PUT whose body carries the id of the
originally loaded record. -/
theorem c6_id_preserved (s : ComponentState) (e0 : Employee)
    (evs : List InputEvent) (pr : CallResult Employee)
    (rr : CallResult (List Employee))
    (hval : getErrors (applyEvents (fillForm s e0) evs).form = []) :
    ∃ emp, putBody (applyEvents (fillForm s e0) evs) = some emp ∧
      emp.id = e0.id ∧
      Effect.request (.put employeePath (some emp)) ∈
        (update (applyEvents (fillForm s e0) evs) pr rr).2 := by
  have hold : (applyEvents (fillForm s e0) evs).oldEmployee = some e0 := by
    rw [applyEvents_oldEmployee]; rfl
  have hsome : (applyEvents (fillForm s e0) evs).employee.isSome = true :=
    applyEvents_fillForm_employee_isSome s e0 evs hval
  obtain ⟨emp0, hemp⟩ := Option.isSome_iff_exists.mp hsome
  have hbody : putBody (applyEvents (fillForm s e0) evs) =
      some { emp0 with id := e0.id } := by
    simp [putBody, hemp, hold]
  refine ⟨{ emp0 with id := e0.id }, hbody, rfl, ?_⟩
  have hlen : ¬ (getErrors (applyEvents (fillForm s e0) evs).form).length > 0 := by
    simp [hval]
  unfold update
  rw [if_neg hlen]
  cases pr with
  | ok resp => simp [hbody]
  | error m => simp [hbody]

theorem c6_witness :
    getErrors (applyEvents (fillForm baseState aliceRow)
      [.name "Bob"]).form = [] ∧
    ∃ emp, putBody (applyEvents (fillForm baseState aliceRow)
        [.name "Bob"]) = some emp ∧
      emp.id = aliceRow.id ∧
      Effect.request (.put employeePath (some emp)) ∈
        (update (applyEvents (fillForm baseState aliceRow) [.name "Bob"])
          (.error none) (.error none)).2 :=
  ⟨by decide,
   c6_id_preserved baseState aliceRow [.name "Bob"] (.error none)
     (.error none) (by decide)⟩

/-- C7 counterexample: a concrete update run that passes validation
whose final state has updating = true on the success path and on the
failure path, refuting the claim that the updating flag is reset to
false by the cleanup step (the finally calls setUpdating(false) and then
disableButtons(false, true), leaving it true). -/
theorem c7_counterexample :
    getErrors c5AfterEdit.form = [] ∧
    (update c5AfterEdit (.ok sampleResp) (.ok sampleListResp)).1.updating
      = true ∧
    (update c5AfterEdit (.error none) (.ok sampleListResp)).1.updating
      = true := by decide

/-- C7 amended: for every create and update that passes validation, the
cleanup step runs on both the success and the failure path; it leaves
submitting = false after a create, and after an update it leaves
submitting = false and updating = true (the default in which the update
button is disabled), because the finally sets updating to false and then
immediately calls disableButtons(false, true). -/
theorem c7_cleanup_flags (s : ComponentState) (pr : CallResult Employee)
    (rr : CallResult (List Employee)) (hval : getErrors s.form = []) :
    (save s pr rr).1.submitting = false ∧
    (update s pr rr).1.submitting = false ∧
    (update s pr rr).1.updating = true := by
  have hlen : ¬ (getErrors s.form).length > 0 := by simp [hval]
  unfold save update
  rw [if_neg hlen, if_neg hlen]
  cases pr <;> simp

theorem c7_witness :
    getErrors c5AfterEdit.form = [] ∧
    ((save c5AfterEdit (.error none) (.error none)).1.submitting = false ∧
     (update c5AfterEdit (.error none) (.error none)).1.submitting = false ∧
     (update c5AfterEdit (.error none) (.error none)).1.updating = true) :=
  ⟨by decide,
   c7_cleanup_flags c5AfterEdit (.error none) (.error none) (by decide)⟩

/-- C8: confirming deletion of an employee with id n issues exactly one
DELETE to /api/employees/n; on success it is followed by the list-reload
GET; on failure the error message is surfaced and the employee list is
unchanged; declining the confirmation issues no request and leaves the
state untouched. -/
theorem c8_delete_flow (s : ComponentState) (e : Employee) (n : Nat)
    (rr : CallResult (List Employee)) (hid : e.id = some n) :
    (∀ resp : ApiResponse Employee,
      requestsOf (deleteEmployee s e true (.ok resp) rr).2 =
        [.delete (employeePath ++ "/" ++ toString n), .get employeePath]) ∧
    (∀ msg : ThrownError,
      requestsOf (deleteEmployee s e true (.error msg) rr).2 =
        [.delete (employeePath ++ "/" ++ toString n)] ∧
      (deleteEmployee s e true (.error msg) rr).1.employees = s.employees ∧
      (deleteEmployee s e true (.error msg) rr).1.error =
        some (msg.getD "Failed to delete employee")) ∧
    (∀ dr : CallResult Employee,
      requestsOf (deleteEmployee s e false dr rr).2 = [] ∧
      (deleteEmployee s e false dr rr).1 = s) := by
  refine ⟨?_, ?_, ?_⟩
  · intro resp
    cases rr <;> simp [deleteEmployee, loadEmployees, requestsOf, jsIdString, hid]
  · intro msg
    refine ⟨?_, rfl, rfl⟩
    simp [deleteEmployee, requestsOf, jsIdString, hid]
  · intro dr
    exact ⟨rfl, rfl⟩

theorem c8_witness :
    aliceRow.id = some 1 ∧
    ((∀ resp : ApiResponse Employee,
       requestsOf (deleteEmployee baseState aliceRow true (.ok resp)
           (.ok sampleListResp)).2 =
         [.delete (employeePath ++ "/" ++ toString 1), .get employeePath]) ∧
     (∀ msg : ThrownError,
       requestsOf (deleteEmployee baseState aliceRow true (.error msg)
           (.ok sampleListResp)).2 =
         [.delete (employeePath ++ "/" ++ toString 1)] ∧
       (deleteEmployee baseState aliceRow true (.error msg)
           (.ok sampleListResp)).1.employees = baseState.employees ∧
       (deleteEmployee baseState aliceRow true (.error msg)
           (.ok sampleListResp)).1.error =
         some (msg.getD "Failed to delete employee")) ∧
     (∀ dr : CallResult Employee,
       requestsOf (deleteEmployee baseState aliceRow false dr
           (.ok sampleListResp)).2 = [] ∧
       (deleteEmployee baseState aliceRow false dr
           (.ok sampleListResp)).1 = baseState)) :=
  ⟨by decide, c8_delete_flow baseState aliceRow 1 (.ok sampleListResp) rfl⟩

/-- C9: when the update flow runs with an empty change list between the
candidate and the snapshot, the user is alerted "No changes detected"
first, and with validation passing the PUT is still issued carrying the
unchanged candidate (with the snapshot's id copied onto it). -/
theorem c9_no_changes_still_put (s : ComponentState)
    (pr : CallResult Employee) (rr : CallResult (List Employee))
    (emp old : Employee) (he : s.employee = some emp)
    (ho : s.oldEmployee = some old)
    (hupd : getUpdates s.employee s.oldEmployee = [])
    (hval : getErrors s.form = []) :
    (update s pr rr).2.head? = some (.alert "No changes detected") ∧
    Effect.request (.put employeePath (some { emp with id := old.id })) ∈
      (update s pr rr).2 := by
  have hlen : ¬ (getErrors s.form).length > 0 := by simp [hval]
  have hbody : putBody s = some { emp with id := old.id } := by
    simp [putBody, he, ho]
  unfold update
  rw [if_neg hlen]
  cases pr <;> simp [hbody, hupd]

theorem c9_witness :
    ((fillForm baseState aliceRow).employee = some aliceRow ∧
     (fillForm baseState aliceRow).oldEmployee = some aliceRow ∧
     getUpdates (fillForm baseState aliceRow).employee
       (fillForm baseState aliceRow).oldEmployee = [] ∧
     getErrors (fillForm baseState aliceRow).form = []) ∧
    ((update (fillForm baseState aliceRow) (.error none)
        (.error none)).2.head? = some (.alert "No changes detected") ∧
     Effect.request (.put employeePath
         (some { aliceRow with id := aliceRow.id })) ∈
       (update (fillForm baseState aliceRow) (.error none)
         (.error none)).2) :=
  ⟨⟨by decide, by decide, by decide, by decide⟩,
   c9_no_changes_still_put (fillForm baseState aliceRow) (.error none)
     (.error none) aliceRow aliceRow (by decide) (by decide) (by decide)
     (by decide)⟩

/-- C10: the delete operation, on every path (declined, success,
failure), leaves the form, the candidate employee, the edit-start
snapshot and the submitting/updating flags unchanged; only the employee
list and the error slot can change. -/
theorem c10_delete_frame (s : ComponentState) (e : Employee)
    (confirmed : Bool) (dr : CallResult Employee)
    (rr : CallResult (List Employee)) :
    (deleteEmployee s e confirmed dr rr).1.form = s.form ∧
    (deleteEmployee s e confirmed dr rr).1.employee = s.employee ∧
    (deleteEmployee s e confirmed dr rr).1.oldEmployee = s.oldEmployee ∧
    (deleteEmployee s e confirmed dr rr).1.submitting = s.submitting ∧
    (deleteEmployee s e confirmed dr rr).1.updating = s.updating := by
  cases confirmed <;> cases dr <;> cases rr <;>
    simp [deleteEmployee, loadEmployees]

end EmployeeMgmt
